import Mathlib

/-!
Verification development for the INA226 voltage/current/power monitor driver
(file `INA226.c`).  The driver is shallowly embedded: the I2C transport is an
oracle assigning an outcome to every primitive bus transaction, each driver
operation is a Lean function threading the device state, the next transaction
index, and the trace of primitive transactions it performed.  C `double`
arithmetic is modelled as exact rational arithmetic; machine-integer casts and
overflow are modelled explicitly (two's complement wrap).  The `CALL_FN` macro
of the source expands its argument twice (`status s = fn; if(fn != OK)`), and
the embedding reproduces that double evaluation faithfully.
-/

namespace INA226Spec

/-! ## Machine-integer helpers -/

/-- Wrap an unbounded integer into the signed 32-bit two's-complement range,
the value semantics of C `int32_t` arithmetic on overflow. -/
def int32wrap (z : Int) : Int := (z + 2147483648) % 4294967296 - 2147483648

/-- Reinterpret a 16-bit register value as a signed C `int16_t`
(two's complement). -/
def toInt16 (v : Nat) : Int :=
  if v % 65536 < 32768 then (v % 65536 : Int) else (v % 65536 : Int) - 65536

/-- Convert a signed integer to the 16-bit unsigned value with the same low
16 bits, the semantics of casting to `uint16_t`. -/
def u16ofInt (z : Int) : Nat := (z % 65536).toNat

/-- Low 32 bits of an integer, as a natural number (two's complement view). -/
def toU32 (z : Int) : Nat := (z % 4294967296).toNat

/-- Reinterpret a 32-bit unsigned value as a signed C `int32_t`. -/
def ofU32 (n : Nat) : Int :=
  if n % 4294967296 < 2147483648 then (n % 4294967296 : Int)
  else (n % 4294967296 : Int) - 4294967296

/-- Bitwise OR of two C `int` (32-bit) values, via two's complement. -/
def or32 (a b : Int) : Int := ofU32 (toU32 a ||| toU32 b)

/-! ## Exact-rational model of the C `double` operations used by the driver -/

/-- Floor of a rational, computed on the normalized numerator/denominator. -/
def ratFloor (q : ℚ) : Int := q.num / (q.den : Int)

/-- Ceiling of a rational; models the C `ceil` function on an exact value. -/
def ratCeil (q : ℚ) : Int := -(ratFloor (-q))

/-- Truncation toward zero, the semantics of a C cast from `double` to an
integer type. -/
def ratTrunc (q : ℚ) : Int := Int.tdiv q.num (q.den : Int)

/-- Cast of a (nonnegative, in-range) `double` to `uint16_t`: truncation
toward zero.  Out-of-range casts are undefined behaviour in C; the model
wraps, and negative values collapse to zero via `Int.toNat`. -/
def castU16ofRat (q : ℚ) : Nat := (ratTrunc q).toNat % 65536

/-- Cast of an in-range `double` to `int32_t`: truncation toward zero.
Out-of-range casts are undefined behaviour in C; the model wraps. -/
def castI32ofRat (q : ℚ) : Int := int32wrap (ratTrunc q)

/-! ## Status codes

Modelled from the spec: the `status` enumeration lives in the header
`INA226.h`, which is not part of the provided sources.  The spec names the
error kinds (transport failure, invalid-address, two identifier mismatches,
configuration-verification failure, not-initialized, bad-parameter) and the
code treats `status` as an integer with `OK` as the zero/success value
(`INA226_MeasureAll` returns a bitwise OR in this type).  The exact nonzero
numerals are unknown; any pairwise-distinct nonzero choice is faithful. -/

abbrev status := Int

def OK : status := 0
def FAIL : status := 1
def INVALID_I2C_ADDRESS : status := 2
def INA226_TI_ID_MISMATCH : status := 3
def INA226_DIE_ID_MISMATCH : status := 4
def CONFIG_ERROR : status := 5
def NOT_INITIALIZED : status := 6
def BAD_PARAMETER : status := 7

/-! ## Register addresses and constants (from `INA226.c`) -/

def INA226_CONFIG : Nat := 0x00
def INA226_SHUNT_VOLTAGE : Nat := 0x01
def INA226_BUS_VOLTAGE : Nat := 0x02
def INA226_POWER : Nat := 0x03
def INA226_CURRENT : Nat := 0x04
def INA226_CALIBRATION : Nat := 0x05
def INA226_MASK_ENABLE : Nat := 0x06
def INA226_ALERT_LIMIT : Nat := 0x07
def INA226_MANUFACTURER_ID : Nat := 0xFE
def INA226_DIE_ID : Nat := 0xFF

def INA226_BUS_VOLTAGE_LSB : Int := 1250
def INA226_POWER_LSB_FACTOR : Int := 25
def INA226_MANUFACTURER_ID_K : Nat := 0x5449
def INA226_DIE_ID_K : Nat := 0x2260
def INA226_CONFIG_DEFAULT : Nat := 0x4527

def cResetCommand : Nat := 0x8000
def cOperatingModeMask : Nat := 0x0007
def cAlertPinModeMask : Nat := 0xFC00
def cAlertCauseMask : Nat := 0x001E
def cAlertLatchingMode : Nat := 0x0001
def cSampleAvgMask : Nat := 0x0E00
def cBusVoltageConvTimeMask : Nat := 0x01C0
def cShuntVoltageConvTimeMask : Nat := 0x0038
def cSampleAvgIdxShift : Nat := 9
def cBusVoltConvTimeIdxShift : Nat := 6
def cShuntVoltConvTimeIdxShift : Nat := 3
def cMaxSampleAvgTblIdx : Int := 7
def cMaxConvTimeTblIdx : Int := 7

/-! ## Enumerations from the missing header

Modelled from the spec: `enum eOperatingMode` and `enum eAlertTrigger` are
declared in `INA226.h`, which is not under `src/`.  The operating-mode
encodings follow the chip MODE field the spec describes (shutdown and zero are
distinct encodings that both mean powered down; continuous shunt-and-bus
voltage is the mode substituted on wake, and it is the mode contained in the
default configuration 0x4527, whose low three bits are 7).  The alert-trigger
encodings are the mask/enable register mode bits (mask 0xFC00) plus the two
valueless causes; `ClearTriggers` clears all mode bits. -/

def Shutdown : Nat := 4
def ShuntAndBusVoltageContinuous : Nat := 7

def ClearTriggers : Nat := 0x0000
def ShuntVoltageOverLimit : Nat := 0x8000
def ShuntVoltageUnderLimit : Nat := 0x4000
def BusVoltageOverLimit : Nat := 0x2000
def BusVoltageUnderLimit : Nat := 0x1000
def PowerOverLimit : Nat := 0x0800
def ConversionReady : Nat := 0x0400

/-! ## Data model -/

/-- Device state, mirroring `struct INA226_config` (the opaque HAL handle
`hi2c` carries no observable state and is omitted). -/
structure INA226_config where
  mInitialized : Bool
  mI2C_Address : Nat
  mConfigRegister : Nat
  mCalibrationValue : Nat
  mCurrentMicroAmpsPerBit : Int
  mPowerMicroWattPerBit : Int
deriving DecidableEq

/-- Measurement snapshot, mirroring the `Result` member of `struct INA226`. -/
structure INA226_Result where
  ShuntVoltage_uV : Int
  BusVoltage_uV : Int
  Current_uA : Int
  Power_uW : Int
deriving DecidableEq

/-- Mirror of `struct INA226`. -/
structure INA226 where
  Config : INA226_config
  Result : INA226_Result
deriving DecidableEq

/-- Outcome of one primitive bus transaction: the HAL return code (0 means
success) and, for a receive, the two bytes delivered. -/
structure BusStep where
  code : Int
  hi : Nat
  lo : Nat
deriving DecidableEq

/-- Transport oracle: the outcome of the n-th primitive transaction of a run. -/
abbrev Bus := Nat → BusStep

/-- Record of one primitive transaction performed by the driver. -/
inductive Prim where
  | transmit : List Nat → Prim
  | receive : Nat → Prim
  | probe : Nat → Prim
deriving DecidableEq

/-- Result of a step that yields only a status: status, next transaction
index, trace of primitives performed. -/
structure StRes where
  st : status
  k : Nat
  tr : List Prim
deriving DecidableEq

/-- Result of a register read: status, value read (zeroed on failure), next
transaction index, trace. -/
structure RdRes where
  st : status
  val : Nat
  k : Nat
  tr : List Prim
deriving DecidableEq

/-- Result of a measurement getter: converted value, next transaction index,
trace. -/
structure MeasRes where
  val : Int
  k : Nat
  tr : List Prim
deriving DecidableEq

/-- Result of an operation on the device configuration state. -/
structure OpRes where
  st : status
  cfg : INA226_config
  k : Nat
  tr : List Prim
deriving DecidableEq

/-- Result of an operation on the whole device (`struct INA226`). -/
structure DevRes where
  st : status
  dev : INA226
  k : Nat
  tr : List Prim
deriving DecidableEq

/-! ## Transport primitives and the register access layer -/

/-- Probe for a device at an address (HAL presence check); returns the raw
HAL code. -/
def Check_device (bus : Bus) (k : Nat) (addr : Nat) : StRes :=
  ⟨(bus k).code, k + 1, [Prim.probe addr]⟩

/-- Embedding of `INA226_ReadRegister` (lines 177-192): transmit the register
address (1 byte), then receive 2 bytes, big-endian; the output value is zeroed
on any failure. -/
def INA226_ReadRegister (bus : Bus) (k : Nat) (aRegister : Nat) : RdRes :=
  if (bus k).code ≠ 0 then
    ⟨FAIL, 0, k + 1, [Prim.transmit [aRegister]]⟩
  else if (bus (k + 1)).code ≠ 0 then
    ⟨FAIL, 0, k + 2, [Prim.transmit [aRegister], Prim.receive 2]⟩
  else
    ⟨OK, (((bus (k + 1)).hi % 256) <<< 8) ||| ((bus (k + 1)).lo % 256),
      k + 2, [Prim.transmit [aRegister], Prim.receive 2]⟩

/-- Embedding of `INA226_WriteRegister` (lines 195-206): transmit 3 bytes,
the register address followed by the value, high byte first. -/
def INA226_WriteRegister (bus : Bus) (k : Nat) (aRegister : Nat) (aValue : Nat) :
    StRes :=
  if (bus k).code ≠ 0 then
    ⟨FAIL, k + 1, [Prim.transmit [aRegister, aValue / 256 % 256, aValue % 256]]⟩
  else
    ⟨OK, k + 1, [Prim.transmit [aRegister, aValue / 256 % 256, aValue % 256]]⟩

/-- Embedding of `INA226_CheckI2cAddress` (lines 166-173). -/
def INA226_CheckI2cAddress (bus : Bus) (k : Nat) (aI2C_Address : Nat) : StRes :=
  let c := Check_device bus k aI2C_Address
  ⟨if c.st ≠ 0 then INVALID_I2C_ADDRESS else OK, c.k, c.tr⟩

/-- Embedding of `INA226_Constructor` (lines 89-98): clear all in-memory
fields; no bus traffic. -/
def INA226_Constructor (aI2C_Address : Nat) : INA226_config :=
  ⟨false, aI2C_Address, 0, 0, 0, 0⟩

/-! ## Pure computation kernels extracted from the source -/

/-- Derived calibration quantities of `INA226_setupCalibration`
(lines 154-159), over exact rationals in place of `double`.  The constant
0.00521 is the one the code uses (its comment cites 0.00512 from the chip
specification). -/
structure CalCalc where
  theCurrentLSB : ℚ
  theCal : ℚ
  mCurrentMicroAmpsPerBit : Int
  mCalibrationValue : Nat
  mPowerMicroWattPerBit : Int
deriving DecidableEq

/-- Pure part of `INA226_setupCalibration` (lines 143-159). -/
def INA226_setupCalibration_calc (aShuntResistor_Ohms aMaxCurrent_Amps : ℚ) :
    CalCalc :=
  let theCurrentLSB : ℚ := (ratCeil (aMaxCurrent_Amps * 1000000 / 32767) : ℚ)
  let theCal : ℚ :=
    (521 / 100000) / (aShuntResistor_Ohms * (theCurrentLSB / 1000000))
  let cur : Int := castI32ofRat theCurrentLSB
  { theCurrentLSB := theCurrentLSB
    theCal := theCal
    mCurrentMicroAmpsPerBit := cur
    mCalibrationValue := castU16ofRat theCal
    mPowerMicroWattPerBit := int32wrap (cur * INA226_POWER_LSB_FACTOR) }

/-- Shunt-voltage conversion of `INA226_GetShuntVoltage_uV` (lines 215-220):
reinterpret the register value as `int16_t`, then add the arithmetic right
shift by one to the left shift by one, in `int32_t` arithmetic.  An arithmetic
right shift of a two's-complement value is floor division by two, which is
Euclidean division by the positive constant 2. -/
def INA226_shuntConvert (v : Nat) : Int :=
  int32wrap (toInt16 v / 2 + int32wrap (toInt16 v * 2))

/-- Configuration update of `INA226_ConfigureNumSampleAveraging`
(lines 410-414): clear the averaging bits, OR in the index shifted into
position, stored into the 16-bit register copy. -/
def INA226_sampleAvgUpdate (config idx : Nat) : Nat :=
  ((config &&& (65535 ^^^ cSampleAvgMask)) ||| (idx <<< cSampleAvgIdxShift)) % 65536

/-- Configuration update of `INA226_ConfigureVoltageConversionTime`
(lines 388-396): clear both conversion-time fields, OR the same index into the
bus field (shift 6) and the shunt field (shift 3). -/
def INA226_convTimeUpdate (config idx : Nat) : Nat :=
  ((config &&& (65535 ^^^ (cBusVoltageConvTimeMask ||| cShuntVoltageConvTimeMask))) |||
    (((idx <<< cBusVoltConvTimeIdxShift) ||| (idx <<< cShuntVoltConvTimeIdxShift)) % 65536)) % 65536

/-- Configuration value written by `INA226_Wakeup` (lines 275-282): restore
the snapshot, but if its operating-mode bits encode `Shutdown` or zero,
substitute `ShuntAndBusVoltageContinuous`. -/
def INA226_wakeupConfig (snapshot : Nat) : Nat :=
  let theLastOperatingMode := snapshot &&& cOperatingModeMask
  if theLastOperatingMode = Shutdown ∨ theLastOperatingMode = 0 then
    ((snapshot &&& (65535 ^^^ cOperatingModeMask)) ||| ShuntAndBusVoltageContinuous) % 65536
  else snapshot

/-- Alert-limit value of the `switch` in `INA226_ConfigureAlertPinTrigger`
(lines 322-343); `none` is the `default` branch returning `BAD_PARAMETER`.
C integer division truncates toward zero (`Int.tdiv`). -/
def INA226_alertValue (cfg : INA226_config) (aAlertTrigger : Nat) (aValue : Int) :
    Option Int :=
  if aAlertTrigger = PowerOverLimit then
    some (Int.tdiv aValue cfg.mPowerMicroWattPerBit)
  else if aAlertTrigger = ClearTriggers ∨ aAlertTrigger = ConversionReady then
    some 0
  else if aAlertTrigger = ShuntVoltageOverLimit ∨ aAlertTrigger = ShuntVoltageUnderLimit then
    some (Int.tdiv (int32wrap (aValue * 2)) 5)
  else if aAlertTrigger = BusVoltageOverLimit ∨ aAlertTrigger = BusVoltageUnderLimit then
    some (Int.tdiv aValue INA226_BUS_VOLTAGE_LSB)
  else
    none

/-! ## Driver operations

Every use of the source macro `CALL_FN(fn)` is embedded as two successive
evaluations of `fn`, because the macro body `{ status s = fn; if(fn != OK){return s;} }`
expands its argument in both the initializer and the condition; the early
return delivers the status of the first evaluation when the second one is not
`OK`. -/

/-- Embedding of `INA226_setupCalibration` (lines 143-162): store the three
derived calibration values, then write the calibration register. -/
def INA226_setupCalibration (cfg : INA226_config) (bus : Bus) (k : Nat)
    (aShuntResistor_Ohms aMaxCurrent_Amps : ℚ) : OpRes :=
  let c := INA226_setupCalibration_calc aShuntResistor_Ohms aMaxCurrent_Amps
  let cfg2 := { cfg with
    mCurrentMicroAmpsPerBit := c.mCurrentMicroAmpsPerBit
    mCalibrationValue := c.mCalibrationValue
    mPowerMicroWattPerBit := c.mPowerMicroWattPerBit }
  let w := INA226_WriteRegister bus k INA226_CALIBRATION cfg2.mCalibrationValue
  ⟨w.st, cfg2, w.k, w.tr⟩

/-- Embedding of `INA226_GetShuntVoltage_uV` (lines 208-221).  The register
read status is discarded by the source (no `CALL_FN`); a failed read leaves
the zeroed register value in place. -/
def INA226_GetShuntVoltage_uV (cfg : INA226_config) (bus : Bus) (k : Nat) :
    MeasRes :=
  let r := INA226_ReadRegister bus k INA226_SHUNT_VOLTAGE
  ⟨INA226_shuntConvert r.val, r.k, r.tr⟩

/-- Embedding of `INA226_GetBusVoltage_uV` (lines 223-228); read status
discarded by the source. -/
def INA226_GetBusVoltage_uV (cfg : INA226_config) (bus : Bus) (k : Nat) :
    MeasRes :=
  let r := INA226_ReadRegister bus k INA226_BUS_VOLTAGE
  ⟨int32wrap ((r.val : Int) * INA226_BUS_VOLTAGE_LSB), r.k, r.tr⟩

/-- Embedding of `INA226_GetCurrent_uA` (lines 231-236); read status
discarded by the source. -/
def INA226_GetCurrent_uA (cfg : INA226_config) (bus : Bus) (k : Nat) :
    MeasRes :=
  let r := INA226_ReadRegister bus k INA226_CURRENT
  ⟨int32wrap (toInt16 r.val * cfg.mCurrentMicroAmpsPerBit), r.k, r.tr⟩

/-- Embedding of `INA226_GetPower_uW` (lines 238-245); read status discarded
by the source. -/
def INA226_GetPower_uW (cfg : INA226_config) (bus : Bus) (k : Nat) : MeasRes :=
  let r := INA226_ReadRegister bus k INA226_POWER
  ⟨int32wrap ((r.val : Int) * cfg.mPowerMicroWattPerBit), r.k, r.tr⟩

/-- Embedding of `INA226_MeasureAll` (lines 247-254).  The source folds the
four measured values, not their read statuses, into `r` with bitwise OR
(`r |= this->Result.X = INA226_GetX(this)`), and returns `r` as the status. -/
def INA226_MeasureAll (dev : INA226) (bus : Bus) (k : Nat) : DevRes :=
  let m1 := INA226_GetShuntVoltage_uV dev.Config bus k
  let m2 := INA226_GetBusVoltage_uV dev.Config bus m1.k
  let m3 := INA226_GetCurrent_uA dev.Config bus m2.k
  let m4 := INA226_GetPower_uW dev.Config bus m3.k
  let r := or32 (or32 (or32 (or32 0 m1.val) m2.val) m3.val) m4.val
  ⟨r, { dev with Result := ⟨m1.val, m2.val, m3.val, m4.val⟩ }, m4.k,
    m1.tr ++ m2.tr ++ m3.tr ++ m4.tr⟩

/-- Embedding of `INA226_Hibernate` (lines 255-266): guard on initialization,
snapshot the live configuration register (the `CALL_FN` read runs twice; the
second value is the one kept), then write the snapshot with the
operating-mode bits cleared.  The snapshot itself is not modified. -/
def INA226_Hibernate (cfg : INA226_config) (bus : Bus) (k : Nat) : OpRes :=
  if cfg.mInitialized = false then ⟨NOT_INITIALIZED, cfg, k, []⟩ else
  let r1 := INA226_ReadRegister bus k INA226_CONFIG
  let r2 := INA226_ReadRegister bus r1.k INA226_CONFIG
  let cfg2 := { cfg with mConfigRegister := r2.val }
  if r2.st ≠ OK then ⟨r1.st, cfg2, r2.k, r1.tr ++ r2.tr⟩ else
  let theTempConfigValue := cfg2.mConfigRegister &&& (65535 ^^^ cOperatingModeMask)
  let w := INA226_WriteRegister bus r2.k INA226_CONFIG theTempConfigValue
  ⟨w.st, cfg2, w.k, r1.tr ++ r2.tr ++ w.tr⟩

/-- Embedding of `INA226_Wakeup` (lines 268-283): guard on initialization,
then write back the stored configuration snapshot, substituting the
continuous shunt-and-bus mode when the snapshot mode bits are `Shutdown` or
zero.  The substituted value is also stored back into the snapshot. -/
def INA226_Wakeup (cfg : INA226_config) (bus : Bus) (k : Nat) : OpRes :=
  if cfg.mInitialized = false then ⟨NOT_INITIALIZED, cfg, k, []⟩ else
  let newValue := INA226_wakeupConfig cfg.mConfigRegister
  let cfg2 := { cfg with mConfigRegister := newValue }
  let w := INA226_WriteRegister bus k INA226_CONFIG newValue
  ⟨w.st, cfg2, w.k, w.tr⟩

/-- Embedding of `INA226_SetOperatingMode` (lines 285-295). -/
def INA226_SetOperatingMode (cfg : INA226_config) (bus : Bus) (k : Nat)
    (aOpMode : Nat) : OpRes :=
  if cfg.mInitialized = false then ⟨NOT_INITIALIZED, cfg, k, []⟩ else
  let r1 := INA226_ReadRegister bus k INA226_CONFIG
  let r2 := INA226_ReadRegister bus r1.k INA226_CONFIG
  let cfg2 := { cfg with mConfigRegister := r2.val }
  if r2.st ≠ OK then ⟨r1.st, cfg2, r2.k, r1.tr ++ r2.tr⟩ else
  let newValue := ((r2.val &&& (65535 ^^^ cOperatingModeMask)) ||| aOpMode) % 65536
  let cfg3 := { cfg with mConfigRegister := newValue }
  let w := INA226_WriteRegister bus r2.k INA226_CONFIG newValue
  ⟨w.st, cfg3, w.k, r1.tr ++ r2.tr ++ w.tr⟩

/-- Embedding of `INA226_ConfigureVoltageConversionTime` (lines 379-399):
guard on initialization, range-check the index, re-read the configuration
register, merge the index into both conversion-time fields, write back. -/
def INA226_ConfigureVoltageConversionTime (cfg : INA226_config) (bus : Bus)
    (k : Nat) (aIndexToConversionTimeTable : Int) : OpRes :=
  if cfg.mInitialized = false then ⟨NOT_INITIALIZED, cfg, k, []⟩ else
  if aIndexToConversionTimeTable < 0 ∨ aIndexToConversionTimeTable > cMaxConvTimeTblIdx then
    ⟨BAD_PARAMETER, cfg, k, []⟩ else
  let r1 := INA226_ReadRegister bus k INA226_CONFIG
  let r2 := INA226_ReadRegister bus r1.k INA226_CONFIG
  let cfg2 := { cfg with mConfigRegister := r2.val }
  if r2.st ≠ OK then ⟨r1.st, cfg2, r2.k, r1.tr ++ r2.tr⟩ else
  let newValue := INA226_convTimeUpdate r2.val aIndexToConversionTimeTable.toNat
  let cfg3 := { cfg with mConfigRegister := newValue }
  let w := INA226_WriteRegister bus r2.k INA226_CONFIG newValue
  ⟨w.st, cfg3, w.k, r1.tr ++ r2.tr ++ w.tr⟩

/-- Embedding of `INA226_ConfigureNumSampleAveraging` (lines 401-417):
guard on initialization, range-check the index, re-read the configuration
register, merge the index into the averaging field, write back. -/
def INA226_ConfigureNumSampleAveraging (cfg : INA226_config) (bus : Bus)
    (k : Nat) (aIndexToSampleAverageTable : Int) : OpRes :=
  if cfg.mInitialized = false then ⟨NOT_INITIALIZED, cfg, k, []⟩ else
  if aIndexToSampleAverageTable < 0 ∨ aIndexToSampleAverageTable > cMaxSampleAvgTblIdx then
    ⟨BAD_PARAMETER, cfg, k, []⟩ else
  let r1 := INA226_ReadRegister bus k INA226_CONFIG
  let r2 := INA226_ReadRegister bus r1.k INA226_CONFIG
  let cfg2 := { cfg with mConfigRegister := r2.val }
  if r2.st ≠ OK then ⟨r1.st, cfg2, r2.k, r1.tr ++ r2.tr⟩ else
  let newValue := INA226_sampleAvgUpdate r2.val aIndexToSampleAverageTable.toNat
  let cfg3 := { cfg with mConfigRegister := newValue }
  let w := INA226_WriteRegister bus r2.k INA226_CONFIG newValue
  ⟨w.st, cfg3, w.k, r1.tr ++ r2.tr ++ w.tr⟩

/-- Embedding of `INA226_ConfigureAlertPinTrigger` (lines 297-350): guard on
initialization, read the mask/enable register (the `CALL_FN` read runs
twice), prepare the new mode bits, dispatch on the trigger cause (an
unrecognized cause returns `BAD_PARAMETER` after the read but before any
write), write the alert-limit register (twice, via `CALL_FN`), then write the
mask/enable register. -/
def INA226_ConfigureAlertPinTrigger (cfg : INA226_config) (bus : Bus) (k : Nat)
    (aAlertTrigger : Nat) (aValue : Int) (aLatching : Bool) : OpRes :=
  if cfg.mInitialized = false then ⟨NOT_INITIALIZED, cfg, k, []⟩ else
  let r1 := INA226_ReadRegister bus k INA226_MASK_ENABLE
  let r2 := INA226_ReadRegister bus r1.k INA226_MASK_ENABLE
  if r2.st ≠ OK then ⟨r1.st, cfg, r2.k, r1.tr ++ r2.tr⟩ else
  let m0 := r2.val &&& (65535 ^^^ cAlertPinModeMask)
  let m1 := (m0 ||| aAlertTrigger) % 65536
  let m2 := if aLatching then (m1 ||| cAlertLatchingMode) % 65536 else m1
  match INA226_alertValue cfg aAlertTrigger aValue with
  | none => ⟨BAD_PARAMETER, cfg, r2.k, r1.tr ++ r2.tr⟩
  | some theAlertValue =>
    let w1 := INA226_WriteRegister bus r2.k INA226_ALERT_LIMIT (u16ofInt theAlertValue)
    let w2 := INA226_WriteRegister bus w1.k INA226_ALERT_LIMIT (u16ofInt theAlertValue)
    if w2.st ≠ OK then ⟨w1.st, cfg, w2.k, r1.tr ++ r2.tr ++ w1.tr ++ w2.tr⟩ else
    let w3 := INA226_WriteRegister bus w2.k INA226_MASK_ENABLE m2
    ⟨w3.st, cfg, w3.k, r1.tr ++ r2.tr ++ w1.tr ++ w2.tr ++ w3.tr⟩

/-- Embedding of `INA226_Init` (lines 101-140): construct, probe the address,
verify the manufacturer and die identifiers, soft-reset, write and verify the
default configuration, run the calibration engine, and only then set the
initialized flag.  Every `CALL_FN` step appears twice, per the macro
expansion; identifier checks and the read-back check use the value left by
the second evaluation. -/
def INA226_Init (dev : INA226) (bus : Bus) (k : Nat) (aI2C_Address : Nat)
    (aShuntResistor_Ohms aMaxCurrent_Amps : ℚ) : DevRes :=
  let cfg0 := INA226_Constructor aI2C_Address
  let p1 := INA226_CheckI2cAddress bus k aI2C_Address
  let p2 := INA226_CheckI2cAddress bus p1.k aI2C_Address
  let tr0 := p1.tr ++ p2.tr
  if p2.st ≠ OK then ⟨p1.st, { dev with Config := cfg0 }, p2.k, tr0⟩ else
  let r1 := INA226_ReadRegister bus p2.k INA226_MANUFACTURER_ID
  let r2 := INA226_ReadRegister bus r1.k INA226_MANUFACTURER_ID
  let tr1 := tr0 ++ r1.tr ++ r2.tr
  if r2.st ≠ OK then ⟨r1.st, { dev with Config := cfg0 }, r2.k, tr1⟩ else
  if r2.val ≠ INA226_MANUFACTURER_ID_K then
    ⟨INA226_TI_ID_MISMATCH, { dev with Config := cfg0 }, r2.k, tr1⟩ else
  let r3 := INA226_ReadRegister bus r2.k INA226_DIE_ID
  let r4 := INA226_ReadRegister bus r3.k INA226_DIE_ID
  let tr2 := tr1 ++ r3.tr ++ r4.tr
  if r4.st ≠ OK then ⟨r3.st, { dev with Config := cfg0 }, r4.k, tr2⟩ else
  if r4.val ≠ INA226_DIE_ID_K then
    ⟨INA226_DIE_ID_MISMATCH, { dev with Config := cfg0 }, r4.k, tr2⟩ else
  let w1 := INA226_WriteRegister bus r4.k INA226_CONFIG cResetCommand
  let w2 := INA226_WriteRegister bus w1.k INA226_CONFIG cResetCommand
  let tr3 := tr2 ++ w1.tr ++ w2.tr
  if w2.st ≠ OK then ⟨w1.st, { dev with Config := cfg0 }, w2.k, tr3⟩ else
  let w3 := INA226_WriteRegister bus w2.k INA226_CONFIG INA226_CONFIG_DEFAULT
  let w4 := INA226_WriteRegister bus w3.k INA226_CONFIG INA226_CONFIG_DEFAULT
  let tr4 := tr3 ++ w3.tr ++ w4.tr
  if w4.st ≠ OK then ⟨w3.st, { dev with Config := cfg0 }, w4.k, tr4⟩ else
  let r5 := INA226_ReadRegister bus w4.k INA226_CONFIG
  let r6 := INA226_ReadRegister bus r5.k INA226_CONFIG
  let cfg1 := { cfg0 with mConfigRegister := r6.val }
  let tr5 := tr4 ++ r5.tr ++ r6.tr
  if r6.st ≠ OK then ⟨r5.st, { dev with Config := cfg1 }, r6.k, tr5⟩ else
  if cfg1.mConfigRegister ≠ INA226_CONFIG_DEFAULT then
    ⟨CONFIG_ERROR, { dev with Config := cfg1 }, r6.k, tr5⟩ else
  let s1 := INA226_setupCalibration cfg1 bus r6.k aShuntResistor_Ohms aMaxCurrent_Amps
  let s2 := INA226_setupCalibration s1.cfg bus s1.k aShuntResistor_Ohms aMaxCurrent_Amps
  let tr6 := tr5 ++ s1.tr ++ s2.tr
  if s2.st ≠ OK then ⟨s1.st, { dev with Config := s2.cfg }, s2.k, tr6⟩ else
  ⟨OK, { dev with Config := { s2.cfg with mInitialized := true } }, s2.k, tr6⟩

/-! ## Concrete fixtures used to evaluate the model on specific runs -/

/-- Transport on which every transaction succeeds and every receive delivers
two zero bytes. -/
def busZero : Bus := fun _ => ⟨0, 0, 0⟩

/-- Transport on which every transaction succeeds; transaction 1 (the receive
of the first register read of a run starting at index 0) delivers the bytes
0x00 0x02, so that first read yields the raw count 2. -/
def busShunt2 : Bus := fun n => if n = 1 then ⟨0, 0, 2⟩ else ⟨0, 0, 0⟩

/-- Transport on which transaction 0 fails and every later transaction
succeeds with zero bytes. -/
def busFailFirst : Bus := fun n => if n = 0 then ⟨1, 0, 0⟩ else ⟨0, 0, 0⟩

/-- Device configuration state as left by a successful initialization guard:
the initialized flag is set (other fields as constructed). -/
def cfgReady : INA226_config := { INA226_Constructor 64 with mInitialized := true }

/-- Whole-device fixture wrapping `cfgReady`. -/
def devReady : INA226 := ⟨cfgReady, ⟨0, 0, 0, 0⟩⟩

/-- Initialized device whose stored configuration snapshot carries the
`Shutdown` operating mode (0x4524 has mode bits 4), as left by a hibernate
that read that configuration from the device. -/
def cfgShutdownSnap : INA226_config :=
  { INA226_Constructor 64 with mInitialized := true, mConfigRegister := 0x4524 }

/-- Transport for an `INA226_Init` run starting at transaction 0 on which
every transaction succeeds and the receives of the (twice executed)
identifier read steps deliver the expected manufacturer identifier 0x5449 and
die identifier 0x2260, while the configuration read-back receives zero bytes,
so initialization stops at the read-back verification. -/
def busInitIdOk : Bus := fun n =>
  if n = 3 ∨ n = 5 then ⟨0, 0x54, 0x49⟩
  else if n = 7 ∨ n = 9 then ⟨0, 0x22, 0x60⟩
  else ⟨0, 0, 0⟩

/-- Transport on which transaction 2 fails and all other transactions succeed
with zero bytes. -/
def busSecondFail : Bus := fun n => if n = 2 then ⟨1, 0, 0⟩ else ⟨0, 0, 0⟩

/-! ## Helper lemmas -/

lemma int32wrap_eq_self (z : Int) (h1 : -2147483648 ≤ z) (h2 : z < 2147483648) :
    int32wrap z = z := by
  unfold int32wrap
  omega

lemma int32wrap_zero : int32wrap 0 = 0 := by decide

lemma lor_land_distrib (a b c : Nat) : (a ||| b) &&& c = (a &&& c) ||| (b &&& c) := by
  apply Nat.eq_of_testBit_eq
  intro i
  simp only [Nat.testBit_land, Nat.testBit_lor]
  cases a.testBit i <;> cases b.testBit i <;> cases c.testBit i <;> rfl

lemma land_land_self (c m : Nat) : (c &&& m) &&& m = c &&& m := by
  apply Nat.eq_of_testBit_eq
  intro i
  simp only [Nat.testBit_land]
  cases c.testBit i <;> cases m.testBit i <;> rfl

/-- Core frame lemma: ORing a value that has no bit inside the kept mask, then
truncating to 16 bits, leaves the masked part of a register copy unchanged. -/
lemma masked_or_frame (c m s : Nat) (hm : m < 65536) (hs : s < 65536)
    (h0 : s &&& m = 0) : ((c &&& m) ||| s) % 65536 &&& m = c &&& m := by
  have h1 : c &&& m < 65536 := lt_of_le_of_lt Nat.and_le_right hm
  have h2 : (c &&& m) ||| s < 65536 := by
    have := Nat.or_lt_two_pow (n := 16) h1 hs
    simpa using this
  rw [Nat.mod_eq_of_lt h2, lor_land_distrib, land_land_self, h0, Nat.or_zero]

lemma writeRegister_tr (bus : Bus) (k reg v : Nat) :
    (INA226_WriteRegister bus k reg v).tr =
      [Prim.transmit [reg, v / 256 % 256, v % 256]] := by
  unfold INA226_WriteRegister
  split_ifs <;> rfl

lemma readRegister_tr_ne_nil (bus : Bus) (k reg : Nat) :
    (INA226_ReadRegister bus k reg).tr ≠ [] := by
  unfold INA226_ReadRegister
  split_ifs <;> simp

lemma toInt16_u16ofInt (raw : Int) (h1 : -32768 ≤ raw) (h2 : raw < 32768) :
    toInt16 (u16ofInt raw) = raw := by
  unfold toInt16 u16ofInt
  split_ifs <;> omega

lemma ratFloor_eq (q : ℚ) : ratFloor q = ⌊q⌋ := Rat.floor_def.symm

lemma ratCeil_eq (q : ℚ) : ratCeil q = ⌈q⌉ := by
  rw [ratCeil, ratFloor_eq, Int.floor_neg, neg_neg]

lemma ratTrunc_eq_floor (q : ℚ) (h : 0 ≤ q) : ratTrunc q = ⌊q⌋ := by
  rw [← ratFloor_eq, ratTrunc, ratFloor]
  have hnum : 0 ≤ q.num := Rat.num_nonneg.mpr h
  obtain ⟨m, hm⟩ := Int.eq_ofNat_of_zero_le hnum
  rw [hm]
  rfl

lemma ratTrunc_intCast (n : Int) : ratTrunc (n : ℚ) = n := by
  rw [ratTrunc, Rat.num_intCast, Rat.den_intCast]
  exact Int.tdiv_one n

/-! ## Claim theorems -/

/-- C5: for every signed 16-bit raw shunt-voltage register count,
`INA226_GetShuntVoltage_uV` converts the register encoding of the count to
`(raw >> 1) + (raw << 1)` with an arithmetic (sign-preserving, floor-rounding)
right shift, that is `raw * 2 + floor (raw / 2)` (integer division here is
Euclidean, which is floor division for the positive divisor 2). -/
theorem shuntVoltage_conversion (raw : Int) (h1 : -32768 ≤ raw)
    (h2 : raw < 32768) :
    INA226_shuntConvert (u16ofInt raw) = 2 * raw + raw / 2 := by
  unfold INA226_shuntConvert
  rw [toInt16_u16ofInt raw h1 h2,
    int32wrap_eq_self (raw * 2) (by omega) (by omega),
    int32wrap_eq_self (raw / 2 + raw * 2) (by omega) (by omega)]
  omega

/-- C5 witness: the raw count -100 (register encoding 0xFF9C) converts to
-250 microvolts. -/
theorem shuntVoltage_conversion_witness :
    INA226_shuntConvert (u16ofInt (-100)) = -250 := by
  rw [shuntVoltage_conversion (-100) (by decide) (by decide)]
  decide

/-- C7: for every 16-bit configuration value and every valid index (0 to 7),
the value written back by `INA226_ConfigureNumSampleAveraging` agrees with the
freshly-read one on every bit outside the averaging field 0x0E00, and the
value written back by `INA226_ConfigureVoltageConversionTime` agrees on every
bit outside the conversion-time fields 0x01C0 and 0x0038; agreement outside a
field is stated as equality after masking with the 16-bit complement of the
field mask (both values are 16-bit). -/
theorem configUpdate_frame (config idx : Nat) (hc : config < 65536)
    (hi : idx ≤ 7) :
    INA226_sampleAvgUpdate config idx &&& (65535 ^^^ cSampleAvgMask) =
      config &&& (65535 ^^^ cSampleAvgMask) ∧
    INA226_convTimeUpdate config idx &&&
        (65535 ^^^ (cBusVoltageConvTimeMask ||| cShuntVoltageConvTimeMask)) =
      config &&& (65535 ^^^ (cBusVoltageConvTimeMask ||| cShuntVoltageConvTimeMask)) := by
  constructor
  · apply masked_or_frame
    · decide
    · interval_cases idx <;> decide
    · interval_cases idx <;> decide
  · apply masked_or_frame
    · decide
    · exact Nat.mod_lt _ (by norm_num)
    · interval_cases idx <;> decide

/-- C7 witness: for the configuration value 0x4527 and index 3, the averaging
update leaves the bits outside 0x0E00 unchanged and the conversion-time
update leaves the bits outside 0x01F8 unchanged. -/
theorem configUpdate_frame_witness :
    INA226_sampleAvgUpdate 0x4527 3 &&& (65535 ^^^ cSampleAvgMask) =
      0x4527 &&& (65535 ^^^ cSampleAvgMask) ∧
    INA226_convTimeUpdate 0x4527 3 &&&
        (65535 ^^^ (cBusVoltageConvTimeMask ||| cShuntVoltageConvTimeMask)) =
      0x4527 &&& (65535 ^^^ (cBusVoltageConvTimeMask ||| cShuntVoltageConvTimeMask)) :=
  configUpdate_frame 0x4527 3 (by decide) (by decide)

/-- Mode-bit analysis of the configuration value computed by
`INA226_wakeupConfig`. -/
lemma wakeupConfig_mode (snapshot : Nat) :
    ((snapshot &&& cOperatingModeMask = Shutdown ∨
      snapshot &&& cOperatingModeMask = 0) →
      INA226_wakeupConfig snapshot &&& cOperatingModeMask =
        ShuntAndBusVoltageContinuous) ∧
    INA226_wakeupConfig snapshot &&& cOperatingModeMask ≠ Shutdown ∧
    INA226_wakeupConfig snapshot &&& cOperatingModeMask ≠ 0 := by
  have hthen : ((snapshot &&& (65535 ^^^ cOperatingModeMask)) |||
      ShuntAndBusVoltageContinuous) % 65536 &&& cOperatingModeMask =
      ShuntAndBusVoltageContinuous := by
    have h1 : snapshot &&& (65535 ^^^ cOperatingModeMask) < 65536 :=
      lt_of_le_of_lt Nat.and_le_right (by decide)
    have h2 : (snapshot &&& (65535 ^^^ cOperatingModeMask)) |||
        ShuntAndBusVoltageContinuous < 65536 := by
      have := Nat.or_lt_two_pow (n := 16) h1
        (show ShuntAndBusVoltageContinuous < 2 ^ 16 by decide)
      simpa using this
    have e1 : (65535 ^^^ cOperatingModeMask) &&& cOperatingModeMask = 0 := by decide
    have e2 : ShuntAndBusVoltageContinuous &&& cOperatingModeMask =
        ShuntAndBusVoltageContinuous := by decide
    rw [Nat.mod_eq_of_lt h2, lor_land_distrib, Nat.and_assoc, e1, e2,
      Nat.and_zero, Nat.zero_or]
  by_cases h : snapshot &&& cOperatingModeMask = Shutdown ∨
      snapshot &&& cOperatingModeMask = 0
  · simp only [INA226_wakeupConfig, h, if_true]
    exact ⟨fun _ => hthen, by rw [hthen]; decide, by rw [hthen]; decide⟩
  · simp only [INA226_wakeupConfig, h, if_false]
    rw [not_or] at h
    exact ⟨fun hc => hc.elim, h.1, h.2⟩

/-- C8: on an initialized device, if the configuration snapshot stored by
`INA226_Hibernate` has operating-mode bits equal to `Shutdown` or zero, the
configuration that `INA226_Wakeup` stores and writes back has operating-mode
bits equal to `ShuntAndBusVoltageContinuous`; for every snapshot whatsoever
the written configuration never carries the `Shutdown` (or zero) operating
mode, and the single write frame carries exactly the substituted
configuration. -/
theorem wakeup_never_shutdown (cfg : INA226_config) (bus : Bus) (k : Nat)
    (h : cfg.mInitialized = true) :
    ((cfg.mConfigRegister &&& cOperatingModeMask = Shutdown ∨
      cfg.mConfigRegister &&& cOperatingModeMask = 0) →
      (INA226_Wakeup cfg bus k).cfg.mConfigRegister &&& cOperatingModeMask =
        ShuntAndBusVoltageContinuous) ∧
    (INA226_Wakeup cfg bus k).cfg.mConfigRegister &&& cOperatingModeMask ≠
      Shutdown ∧
    (INA226_Wakeup cfg bus k).cfg.mConfigRegister &&& cOperatingModeMask ≠ 0 ∧
    (INA226_Wakeup cfg bus k).tr =
      [Prim.transmit [INA226_CONFIG,
        INA226_wakeupConfig cfg.mConfigRegister / 256 % 256,
        INA226_wakeupConfig cfg.mConfigRegister % 256]] := by
  have hw : (INA226_Wakeup cfg bus k).cfg.mConfigRegister =
      INA226_wakeupConfig cfg.mConfigRegister := by
    simp [INA226_Wakeup, h]
  have htr : (INA226_Wakeup cfg bus k).tr =
      [Prim.transmit [INA226_CONFIG,
        INA226_wakeupConfig cfg.mConfigRegister / 256 % 256,
        INA226_wakeupConfig cfg.mConfigRegister % 256]] := by
    simp [INA226_Wakeup, h, writeRegister_tr]
  rw [hw, htr]
  exact ⟨(wakeupConfig_mode cfg.mConfigRegister).1,
    (wakeupConfig_mode cfg.mConfigRegister).2.1,
    (wakeupConfig_mode cfg.mConfigRegister).2.2, rfl⟩

/-- C8 witness: an initialized device whose snapshot 0x4524 carries the
`Shutdown` mode wakes up into `ShuntAndBusVoltageContinuous`, not into
`Shutdown`. -/
theorem wakeup_never_shutdown_witness :
    (INA226_Wakeup cfgShutdownSnap busZero 0).cfg.mConfigRegister &&&
      cOperatingModeMask = ShuntAndBusVoltageContinuous ∧
    (INA226_Wakeup cfgShutdownSnap busZero 0).cfg.mConfigRegister &&&
      cOperatingModeMask ≠ Shutdown :=
  ⟨(wakeup_never_shutdown cfgShutdownSnap busZero 0 rfl).1 (Or.inl (by decide)),
   (wakeup_never_shutdown cfgShutdownSnap busZero 0 rfl).2.1⟩

/-- C10: the constructor zeroes both scale factors, and while they are zero,
`INA226_GetCurrent_uA` and `INA226_GetPower_uW` return exactly 0 for every
transport outcome (hence every raw register count), reporting no error (the
getters have no error channel: they return only the value). -/
theorem uncalibrated_measurements_zero :
    (∀ addr : Nat, (INA226_Constructor addr).mCurrentMicroAmpsPerBit = 0 ∧
      (INA226_Constructor addr).mPowerMicroWattPerBit = 0) ∧
    (∀ (cfg : INA226_config) (bus : Bus) (k : Nat),
      cfg.mCurrentMicroAmpsPerBit = 0 →
      (INA226_GetCurrent_uA cfg bus k).val = 0) ∧
    (∀ (cfg : INA226_config) (bus : Bus) (k : Nat),
      cfg.mPowerMicroWattPerBit = 0 →
      (INA226_GetPower_uW cfg bus k).val = 0) := by
  refine ⟨fun addr => ⟨rfl, rfl⟩, ?_, ?_⟩
  · intro cfg bus k h
    show int32wrap (toInt16 (INA226_ReadRegister bus k INA226_CURRENT).val *
      cfg.mCurrentMicroAmpsPerBit) = 0
    rw [h, mul_zero, int32wrap_zero]
  · intro cfg bus k h
    show int32wrap (((INA226_ReadRegister bus k INA226_POWER).val : Int) *
      cfg.mPowerMicroWattPerBit) = 0
    rw [h, mul_zero, int32wrap_zero]

/-- C10 witness: on a freshly constructed (uncalibrated) device, a current
read over an all-success transport returns 0. -/
theorem uncalibrated_measurements_zero_witness :
    (INA226_GetCurrent_uA (INA226_Constructor 64) busZero 0).val = 0 :=
  uncalibrated_measurements_zero.2.1 (INA226_Constructor 64) busZero 0 rfl

/-- C1: refutation of the claim that `INA226_MeasureAll` returns success if
and only if all four register reads succeed.  The source returns the bitwise
OR of the four measured values, not of read statuses (the getters discard
their read status entirely).  On a run where all four reads succeed
(transport `busShunt2`) and the shunt register holds the raw count 2, the
returned status is 5, not success; conversely on a run whose first read fails
(transport `busFailFirst`) while all measured values are zero, the returned
status is success. -/
theorem measureAll_status_ignores_read_status :
    (INA226_ReadRegister busShunt2 0 INA226_SHUNT_VOLTAGE).st = OK ∧
    (INA226_ReadRegister busShunt2 2 INA226_BUS_VOLTAGE).st = OK ∧
    (INA226_ReadRegister busShunt2 4 INA226_CURRENT).st = OK ∧
    (INA226_ReadRegister busShunt2 6 INA226_POWER).st = OK ∧
    (INA226_MeasureAll devReady busShunt2 0).st = 5 ∧
    (INA226_MeasureAll devReady busShunt2 0).st ≠ OK ∧
    (INA226_ReadRegister busFailFirst 0 INA226_SHUNT_VOLTAGE).st = FAIL ∧
    (INA226_MeasureAll devReady busFailFirst 0).st = OK := by decide

/-- C2 counterexample: the measurement getters have no initialization guard;
on a freshly constructed (uninitialized) device, `INA226_GetShuntVoltage_uV`
performs two transport transactions rather than zero. -/
theorem notInitialized_guard_cex :
    (INA226_Constructor 64).mInitialized = false ∧
    (INA226_GetShuntVoltage_uV (INA226_Constructor 64) busZero 0).tr.length = 2 := by
  decide

/-- C2 (amended): on a device whose initialized flag is not set, each of the
configuration and power-state operations (`INA226_SetOperatingMode`,
`INA226_ConfigureNumSampleAveraging`, `INA226_ConfigureVoltageConversionTime`,
`INA226_ConfigureAlertPinTrigger`, `INA226_Hibernate`, `INA226_Wakeup`) fails
with the not-initialized error, leaves the state unchanged, and performs zero
transport transactions; the four measurement getters, however, are unguarded
and always perform their register read (nonempty trace). -/
theorem notInitialized_guard (cfg : INA226_config) (h : cfg.mInitialized = false)
    (bus : Bus) (k : Nat) (aOpMode : Nat) (idx1 idx2 : Int) (cause : Nat)
    (aValue : Int) (aLatching : Bool) :
    INA226_SetOperatingMode cfg bus k aOpMode = ⟨NOT_INITIALIZED, cfg, k, []⟩ ∧
    INA226_ConfigureNumSampleAveraging cfg bus k idx1 =
      ⟨NOT_INITIALIZED, cfg, k, []⟩ ∧
    INA226_ConfigureVoltageConversionTime cfg bus k idx2 =
      ⟨NOT_INITIALIZED, cfg, k, []⟩ ∧
    INA226_ConfigureAlertPinTrigger cfg bus k cause aValue aLatching =
      ⟨NOT_INITIALIZED, cfg, k, []⟩ ∧
    INA226_Hibernate cfg bus k = ⟨NOT_INITIALIZED, cfg, k, []⟩ ∧
    INA226_Wakeup cfg bus k = ⟨NOT_INITIALIZED, cfg, k, []⟩ ∧
    (INA226_GetShuntVoltage_uV cfg bus k).tr ≠ [] ∧
    (INA226_GetBusVoltage_uV cfg bus k).tr ≠ [] ∧
    (INA226_GetCurrent_uA cfg bus k).tr ≠ [] ∧
    (INA226_GetPower_uW cfg bus k).tr ≠ [] := by
  refine ⟨?_, ?_, ?_, ?_, ?_, ?_, ?_, ?_, ?_, ?_⟩
  · simp [INA226_SetOperatingMode, h]
  · simp [INA226_ConfigureNumSampleAveraging, h]
  · simp [INA226_ConfigureVoltageConversionTime, h]
  · simp [INA226_ConfigureAlertPinTrigger, h]
  · simp [INA226_Hibernate, h]
  · simp [INA226_Wakeup, h]
  · exact readRegister_tr_ne_nil bus k INA226_SHUNT_VOLTAGE
  · exact readRegister_tr_ne_nil bus k INA226_BUS_VOLTAGE
  · exact readRegister_tr_ne_nil bus k INA226_CURRENT
  · exact readRegister_tr_ne_nil bus k INA226_POWER

/-- C2 witness: the amended guard statement instantiated on a freshly
constructed device over an all-success transport. -/
theorem notInitialized_guard_witness :
    INA226_SetOperatingMode (INA226_Constructor 64) busZero 0 7 =
      ⟨NOT_INITIALIZED, INA226_Constructor 64, 0, []⟩ ∧
    INA226_ConfigureNumSampleAveraging (INA226_Constructor 64) busZero 0 3 =
      ⟨NOT_INITIALIZED, INA226_Constructor 64, 0, []⟩ ∧
    INA226_ConfigureVoltageConversionTime (INA226_Constructor 64) busZero 0 3 =
      ⟨NOT_INITIALIZED, INA226_Constructor 64, 0, []⟩ ∧
    INA226_ConfigureAlertPinTrigger (INA226_Constructor 64) busZero 0
        ShuntVoltageOverLimit 1000 false =
      ⟨NOT_INITIALIZED, INA226_Constructor 64, 0, []⟩ ∧
    INA226_Hibernate (INA226_Constructor 64) busZero 0 =
      ⟨NOT_INITIALIZED, INA226_Constructor 64, 0, []⟩ ∧
    INA226_Wakeup (INA226_Constructor 64) busZero 0 =
      ⟨NOT_INITIALIZED, INA226_Constructor 64, 0, []⟩ ∧
    (INA226_GetShuntVoltage_uV (INA226_Constructor 64) busZero 0).tr ≠ [] ∧
    (INA226_GetBusVoltage_uV (INA226_Constructor 64) busZero 0).tr ≠ [] ∧
    (INA226_GetCurrent_uA (INA226_Constructor 64) busZero 0).tr ≠ [] ∧
    (INA226_GetPower_uW (INA226_Constructor 64) busZero 0).tr ≠ [] :=
  notInitialized_guard (INA226_Constructor 64) rfl busZero 0 7 3 3
    ShuntVoltageOverLimit 1000 false

/-- C6 counterexample: on an initialized device and an all-success transport,
an unrecognized alert-trigger cause (value 0x0200) does return the
bad-parameter error, but only after four transport transactions (the
mask/enable register read, executed twice by the status-check macro), not
after zero. -/
theorem alertTrigger_badParameter_cex :
    (INA226_ConfigureAlertPinTrigger cfgReady busZero 0 512 0 false).st =
      BAD_PARAMETER ∧
    (INA226_ConfigureAlertPinTrigger cfgReady busZero 0 512 0 false).tr.length = 4 := by
  decide

/-- C6 (amended): on an initialized device, an alert-trigger cause outside
the recognized set makes `INA226_ConfigureAlertPinTrigger` fail without
performing any register write (every transmit in its trace is the 1-byte
mask/enable read address, never a 3-byte write frame), and when the
(twice-executed) mask/enable read succeeds the returned error is
bad-parameter and the trace is exactly the two reads. -/
theorem alertTrigger_badParameter (cfg : INA226_config)
    (h : cfg.mInitialized = true) (bus : Bus) (k : Nat) (cause : Nat)
    (aValue : Int) (aLatching : Bool)
    (hc : cause ∉ [PowerOverLimit, ClearTriggers, ConversionReady,
      ShuntVoltageOverLimit, ShuntVoltageUnderLimit, BusVoltageOverLimit,
      BusVoltageUnderLimit]) :
    (∀ bs, Prim.transmit bs ∈
        (INA226_ConfigureAlertPinTrigger cfg bus k cause aValue aLatching).tr →
      bs = [INA226_MASK_ENABLE]) ∧
    ((bus k).code = 0 → (bus (k + 1)).code = 0 → (bus (k + 2)).code = 0 →
      (bus (k + 3)).code = 0 →
      (INA226_ConfigureAlertPinTrigger cfg bus k cause aValue aLatching).st =
        BAD_PARAMETER ∧
      (INA226_ConfigureAlertPinTrigger cfg bus k cause aValue aLatching).tr =
        [Prim.transmit [INA226_MASK_ENABLE], Prim.receive 2,
         Prim.transmit [INA226_MASK_ENABLE], Prim.receive 2]) := by
  have hx : ¬cause = PowerOverLimit ∧
      ¬(cause = ClearTriggers ∨ cause = ConversionReady) ∧
      ¬(cause = ShuntVoltageOverLimit ∨ cause = ShuntVoltageUnderLimit) ∧
      ¬(cause = BusVoltageOverLimit ∨ cause = BusVoltageUnderLimit) := by
    simp only [List.mem_cons, List.not_mem_nil, or_false] at hc
    push_neg at hc
    tauto
  have halert : INA226_alertValue cfg cause aValue = none := by
    unfold INA226_alertValue
    rw [if_neg hx.1, if_neg hx.2.1, if_neg hx.2.2.1, if_neg hx.2.2.2]
  have e1 : k + 1 + 1 = k + 2 := rfl
  have e2 : k + 2 + 1 = k + 3 := rfl
  refine ⟨?_, ?_⟩
  · intro bs hbs
    by_cases c0 : (bus k).code = 0 <;> by_cases c1 : (bus (k + 1)).code = 0 <;>
      by_cases c2 : (bus (k + 2)).code = 0 <;> by_cases c3 : (bus (k + 3)).code = 0 <;>
      simp_all [INA226_ConfigureAlertPinTrigger, INA226_ReadRegister, halert, e1, e2,
        FAIL, OK]
  · intro d0 d1 d2 d3
    simp [INA226_ConfigureAlertPinTrigger, INA226_ReadRegister, halert, h,
      d0, d1, d2, d3, e1, e2]

/-- C6 witness: the amended statement instantiated on an initialized device,
an all-success transport, and the unrecognized cause 0x0200: the failure is
bad-parameter. -/
theorem alertTrigger_badParameter_witness :
    (INA226_ConfigureAlertPinTrigger cfgReady busZero 0 512 0 false).st =
      BAD_PARAMETER :=
  ((alertTrigger_badParameter cfgReady rfl busZero 0 512 0 false
    (by decide)).2 rfl rfl rfl rfl).1

/-- C9: refutation of the claim that each `CALL_FN`-sequenced step executes
its bus transaction exactly once and that the operation returns immediately
with the step's error on the first failure.  The macro expands its argument
twice, so: on an all-success averaging-configuration run the configuration
read step appears twice in the trace; an `INA226_Init` run stopped at the
read-back check shows every earlier step (probe, both identifier reads, both
writes) executed twice; a `INA226_Hibernate` run whose first transaction
fails but whose immediate re-execution succeeds absorbs the failure and
returns success; and a run whose re-execution fails after a successful first
execution returns success while aborting the operation before its write. -/
theorem callFn_double_execution :
    (INA226_ConfigureNumSampleAveraging cfgReady busZero 0 3).st = OK ∧
    (INA226_ConfigureNumSampleAveraging cfgReady busZero 0 3).tr =
      [Prim.transmit [INA226_CONFIG], Prim.receive 2,
       Prim.transmit [INA226_CONFIG], Prim.receive 2,
       Prim.transmit [INA226_CONFIG, 6, 0]] ∧
    (INA226_Init devReady busInitIdOk 0 64 (1 / 100) 20).st = CONFIG_ERROR ∧
    (INA226_Init devReady busInitIdOk 0 64 (1 / 100) 20).tr =
      [Prim.probe 64, Prim.probe 64,
       Prim.transmit [INA226_MANUFACTURER_ID], Prim.receive 2,
       Prim.transmit [INA226_MANUFACTURER_ID], Prim.receive 2,
       Prim.transmit [INA226_DIE_ID], Prim.receive 2,
       Prim.transmit [INA226_DIE_ID], Prim.receive 2,
       Prim.transmit [INA226_CONFIG, 0x80, 0], Prim.transmit [INA226_CONFIG, 0x80, 0],
       Prim.transmit [INA226_CONFIG, 0x45, 0x27], Prim.transmit [INA226_CONFIG, 0x45, 0x27],
       Prim.transmit [INA226_CONFIG], Prim.receive 2,
       Prim.transmit [INA226_CONFIG], Prim.receive 2] ∧
    (INA226_ReadRegister busFailFirst 0 INA226_CONFIG).st = FAIL ∧
    (INA226_Hibernate cfgReady busFailFirst 0).st = OK ∧
    (INA226_Hibernate cfgReady busFailFirst 0).tr =
      [Prim.transmit [INA226_CONFIG], Prim.transmit [INA226_CONFIG],
       Prim.receive 2, Prim.transmit [INA226_CONFIG, 0, 0]] ∧
    (INA226_ReadRegister busSecondFail 0 INA226_CONFIG).st = OK ∧
    (INA226_Hibernate cfgReady busSecondFail 0).st = OK ∧
    (INA226_Hibernate cfgReady busSecondFail 0).tr =
      [Prim.transmit [INA226_CONFIG], Prim.receive 2,
       Prim.transmit [INA226_CONFIG]] := by
  decide

/-- C3: refutation of the claim that the calibration value uses the scale
constant 0.00512.  For shunt resistance 0.01 ohms and max current 20 amps the
code computes and stores floor(0.00521 / (0.01 * 0.000611)) = 852 — the
implementing constant is 0.00521, as the spec design notes record — whereas
the claimed formula floor(0.00512 / (0.01 * 0.000611)) yields 837. -/
theorem calibrationValue_uses_00521 :
    (INA226_setupCalibration cfgReady busZero 0 (1 / 100) 20).cfg.mCalibrationValue = 852 ∧
    (INA226_setupCalibration_calc (1 / 100) 20).mCalibrationValue = 852 ∧
    Int.toNat ⌊(512 / 100000 : ℚ) / ((1 / 100) * (611 / 1000000))⌋ = 837 ∧
    (852 : ℕ) ≠ 837 := by
  have hceil : ratCeil ((20 : ℚ) * 1000000 / 32767) = 611 := by
    rw [ratCeil_eq, Int.ceil_eq_iff]
    norm_num
  have hcalc : (INA226_setupCalibration_calc (1 / 100) 20).mCalibrationValue = 852 := by
    simp only [INA226_setupCalibration_calc, hceil]
    have hq : (521 / 100000 : ℚ) / ((1 / 100) * (((611 : ℤ) : ℚ) / 1000000)) =
        521000 / 611 := by
      norm_num
    rw [hq, castU16ofRat, ratTrunc_eq_floor _ (by norm_num)]
    norm_num
    decide
  refine ⟨?_, hcalc, ?_, by decide⟩
  · simp only [INA226_setupCalibration]
    exact hcalc
  · norm_num
    decide

/-- C4: for every shunt resistance and every positive max-current input whose
derived step count stays in the `int32_t` range, `INA226_setupCalibration`
stores `currentMicroAmpsPerBit = ceil (maxCurrentAmps * 1000000 / 32767)` and
`powerMicroWattPerBit = 25 * currentMicroAmpsPerBit`. -/
theorem currentLSB_and_powerLSB (aShuntResistor_Ohms aMaxCurrent_Amps : ℚ)
    (hpos : 0 < aMaxCurrent_Amps)
    (hrange : 25 * ⌈aMaxCurrent_Amps * 1000000 / 32767⌉ < 2147483648) :
    (INA226_setupCalibration_calc aShuntResistor_Ohms aMaxCurrent_Amps).mCurrentMicroAmpsPerBit =
      ⌈aMaxCurrent_Amps * 1000000 / 32767⌉ ∧
    (INA226_setupCalibration_calc aShuntResistor_Ohms aMaxCurrent_Amps).mPowerMicroWattPerBit =
      25 * ⌈aMaxCurrent_Amps * 1000000 / 32767⌉ := by
  have hn1 : 1 ≤ ⌈aMaxCurrent_Amps * 1000000 / 32767⌉ := by
    have h0 : (0 : ℚ) < aMaxCurrent_Amps * 1000000 / 32767 := by positivity
    exact Int.ceil_pos.mpr h0
  constructor
  · simp only [INA226_setupCalibration_calc, castI32ofRat]
    rw [ratCeil_eq, ratTrunc_intCast,
      int32wrap_eq_self _ (by omega) (by omega)]
  · simp only [INA226_setupCalibration_calc, castI32ofRat, INA226_POWER_LSB_FACTOR]
    rw [ratCeil_eq, ratTrunc_intCast,
      int32wrap_eq_self (⌈aMaxCurrent_Amps * 1000000 / 32767⌉) (by omega) (by omega),
      int32wrap_eq_self (⌈aMaxCurrent_Amps * 1000000 / 32767⌉ * 25) (by omega)
        (by omega),
      mul_comm]

/-- C4 witness: for max current 20 amps the stored step sizes are 611
microamps per bit and 15275 microwatts per bit. -/
theorem currentLSB_and_powerLSB_witness :
    (INA226_setupCalibration_calc (1 / 100) 20).mCurrentMicroAmpsPerBit = 611 ∧
    (INA226_setupCalibration_calc (1 / 100) 20).mPowerMicroWattPerBit = 15275 := by
  have hceil : ⌈(20 : ℚ) * 1000000 / 32767⌉ = 611 := by
    rw [Int.ceil_eq_iff]
    norm_num
  have h := currentLSB_and_powerLSB (1 / 100) 20 (by norm_num)
    (by rw [hceil]; norm_num)
  exact ⟨by rw [h.1, hceil], by rw [h.2, hceil]; norm_num⟩

end INA226Spec
